import Mathlib

/-!
Shallow embedding of the PA-Broker credential lifecycle code.

The repository ships two variants of the same Flask application:
namespace `App` embeds `src/App.py` (the older variant) and namespace
`App2` embeds `src/app.py` (the newer variant).  File I/O is modelled by
an explicit `StoreState` threaded through the functions, outbound HTTP
calls by an `HttpResult` oracle argument, and Python exceptions by
`Except PyError`.
-/

set_option autoImplicit false

deriving instance DecidableEq for Except

/-- Kinds of Python exceptions the embedded code can raise. -/
inductive PyError where
  | requestError
  | httpStatusError
  | jsonError
  | keyError (k : String)
deriving DecidableEq, Repr

/-- A token JSON object as the code manipulates it: the fields the code
reads or writes, plus opaque passthrough fields (`extra`). An `Option`
field is `none` when the key is absent from the dict. -/
structure TokenJson where
  access_token : Option String
  refresh_token : Option String
  expires_in : Option Int
  expires_at : Option Int
  extra : List (String × String)
deriving DecidableEq, Repr

/-- The empty JSON dict. -/
def TokenJson.emptyDict : TokenJson := ⟨none, none, none, none, []⟩

/-- Python falsiness of the dict (`not tokens`): true iff it has no keys. -/
def TokenJson.isEmptyDict (t : TokenJson) : Bool :=
  t.access_token.isNone && t.refresh_token.isNone && t.expires_in.isNone &&
    t.expires_at.isNone && t.extra.isEmpty

/-- Python truthiness of an optional string: `None` and `""` are falsy. -/
def pyTruthyStr : Option String → Bool
  | none => false
  | some s => if s = "" then false else true

/-- State of the tokens file on disk. -/
inductive StoreState where
  | missing
  | corrupt
  | record (t : TokenJson)
deriving DecidableEq, Repr

/-- Outcome of one outbound HTTP call to the provider token endpoint:
either the request raised (network error / timeout), or a response with a
status code and a parsed JSON body. -/
inductive HttpResult where
  | netError
  | response (status : Nat) (body : TokenJson)
deriving DecidableEq, Repr

/-- Outcome of the caller-API-key guard run before a handler. -/
inductive GateOutcome where
  | proceed
  | forbidden
deriving DecidableEq, Repr

/-- Does `l` lead (start) `s`?  (List-of-chars starts-with check.) -/
def leadsList : List Char → List Char → Bool
  | [], _ => true
  | _ :: _, [] => false
  | a :: as, b :: bs => a == b && leadsList as bs

/-- Does `pat` occur as a contiguous run inside `s`? -/
def occursIn (pat : List Char) : List Char → Bool
  | [] => pat.isEmpty
  | c :: rest => leadsList pat (c :: rest) || occursIn pat rest

/-- Does the string `pat` occur as a contiguous substring of `s`? -/
def strOccurs (pat s : String) : Bool :=
  occursIn pat.data s.data

/-- Upper-case hexadecimal digit, as Python's percent-encoding emits. -/
def hexDigit (n : Nat) : Char :=
  if n < 10 then Char.ofNat (48 + n) else Char.ofNat (55 + n)

/-- UTF-8 encoding of one character, as a list of byte values. -/
def utf8Bytes (c : Char) : List Nat :=
  let n := c.toNat
  if n < 128 then [n]
  else if n < 2048 then [192 + n / 64, 128 + n % 64]
  else if n < 65536 then [224 + n / 4096, 128 + (n / 64) % 64, 128 + n % 64]
  else [240 + n / 262144, 128 + (n / 4096) % 64, 128 + (n / 64) % 64, 128 + n % 64]

/-- Percent-encoding of one byte (`%XX`). -/
def percentByte (b : Nat) : String :=
  String.singleton '%' ++ String.singleton (hexDigit (b / 16)) ++
    String.singleton (hexDigit (b % 16))

/-- Python `urllib.parse.quote_plus` on one character: space becomes `+`,
alphanumerics and `_.-~` pass through, everything else is percent-encoded
byte by byte. -/
def quotePlusChar (c : Char) : String :=
  if c = ' ' then "+"
  else if c.isAlphanum || c = '_' || c = '.' || c = '-' || c = '~' then
    String.singleton c
  else String.join ((utf8Bytes c).map percentByte)

/-- Python `urllib.parse.quote_plus` on a string. -/
def quote_plus (s : String) : String :=
  String.join (s.data.map quotePlusChar)

/-- Python `urllib.parse.urlencode`: `key=value` pairs quoted with
`quote_plus` and joined with `&` in insertion order. -/
def urlencode : List (String × String) → String
  | [] => ""
  | [p] => quote_plus p.1 ++ "=" ++ quote_plus p.2
  | p :: q :: rest =>
    quote_plus p.1 ++ "=" ++ quote_plus p.2 ++ "&" ++ urlencode (q :: rest)

namespace App

/-- `src/App.py` `require_api_key(req)`:
`API_KEY and req.headers.get("x-api-key") == API_KEY`.
`api_key` is `ACTION_API_KEY` (`none` when unset), `x_api_key` the request
header (`none` when absent). -/
def require_api_key (api_key x_api_key : Option String) : Bool :=
  pyTruthyStr api_key && decide (x_api_key = api_key)

/-- The guard every key-protected `src/App.py` handler runs first:
`if not require_api_key(request): return _forbidden()`. -/
def apiKeyGate (api_key x_api_key : Option String) : GateOutcome :=
  if require_api_key api_key x_api_key then .proceed else .forbidden

/-- `src/App.py` `load_tokens`: `None` when the file is missing, the parsed
dict otherwise; `json.load` raises on a corrupt file. -/
def load_tokens (store : StoreState) : Except PyError (Option TokenJson) :=
  match store with
  | .missing => .ok none
  | .corrupt => .error .jsonError
  | .record t => .ok (some t)

/-- `src/App.py` `refresh_access_token`: POSTs the refresh grant,
`raise_for_status`, then overwrites `refresh_token` with the one passed in,
sets `expires_at = now + expires_in (default 3500)` and saves.  Returns the
file state afterwards together with the result. -/
def refresh_access_token (now : Int) (resp : HttpResult) (refresh_token : String)
    (store : StoreState) : StoreState × Except PyError TokenJson :=
  match resp with
  | .netError => (store, .error .requestError)
  | .response status body =>
    if 400 ≤ status then (store, .error .httpStatusError)
    else
      let j : TokenJson :=
        { body with
            refresh_token := some refresh_token,
            expires_at := some (now + body.expires_in.getD 3500) }
      (.record j, .ok j)

/-- `src/App.py` `get_access_token`.  Reads the store, refreshes when
`now >= expires_at - 60`, and returns `t["access_token"]`; `resp` answers
the refresh call if one is made. -/
def get_access_token (now : Int) (resp : HttpResult) (store : StoreState) :
    StoreState × Except PyError (Option String) :=
  match load_tokens store with
  | .error e => (store, .error e)
  | .ok none => (store, .ok none)
  | .ok (some t) =>
    if t.isEmptyDict then (store, .ok none)
    else if t.expires_at.getD 0 - 60 ≤ now then
      match t.refresh_token with
      | none => (store, .error (.keyError "refresh_token"))
      | some rt =>
        match refresh_access_token now resp rt store with
        | (store2, .error e) => (store2, .error e)
        | (store2, .ok t2) =>
          match t2.access_token with
          | none => (store2, .error (.keyError "access_token"))
          | some a => (store2, .ok (some a))
    else
      match t.access_token with
      | none => (store, .error (.keyError "access_token"))
      | some a => (store, .ok (some a))

/-- `src/App.py` `auth_callback` persistence after a successful code
exchange: sets `expires_at = now + expires_in (default 3500)` and saves. -/
def auth_callback_exchange (now : Int) (resp : HttpResult) (store : StoreState) :
    StoreState × Except PyError TokenJson :=
  match resp with
  | .netError => (store, .error .requestError)
  | .response status body =>
    if 400 ≤ status then (store, .error .httpStatusError)
    else
      let j : TokenJson :=
        { body with expires_at := some (now + body.expires_in.getD 3500) }
      (.record j, .ok j)

/-- `src/App.py` `auth_start` redirect URL (params in the dict's insertion
order: client_id, redirect_uri, response_type, access_type, prompt, scope). -/
def auth_start_url (client_id redirect_uri scopes : String) : String :=
  "https://accounts.google.com/o/oauth2/auth?" ++ urlencode
    [("client_id", client_id),
     ("redirect_uri", redirect_uri),
     ("response_type", "code"),
     ("access_type", "offline"),
     ("prompt", "consent"),
     ("scope", scopes)]

end App

namespace App2

/-- `src/app.py` `require_api_key` decorator guard: when `API_KEY` is
non-empty, a request whose `x-api-key` header (default `""`) differs is
rejected; otherwise the wrapped handler runs. -/
def require_api_key (api_key : String) (x_api_key : Option String) : GateOutcome :=
  if api_key ≠ "" then
    if x_api_key.getD "" ≠ api_key then .forbidden else .proceed
  else .proceed

/-- `src/app.py` `load_tokens`: `{}` when the file is missing or unreadable,
the parsed dict otherwise; never raises. -/
def load_tokens (store : StoreState) : TokenJson :=
  match store with
  | .missing => TokenJson.emptyDict
  | .corrupt => TokenJson.emptyDict
  | .record t => t

/-- `src/app.py` `_refresh_access_token`: POSTs the refresh grant,
`raise_for_status`, overwrites `refresh_token` with the one passed in and
sets `expires_at = now + expires_in (default 3600) - 60`.  Does not write
the store; its callers save the result. -/
def refresh_access_token (now : Int) (resp : HttpResult) (refresh_token : String) :
    Except PyError TokenJson :=
  match resp with
  | .netError => .error .requestError
  | .response status body =>
    if 400 ≤ status then .error .httpStatusError
    else
      .ok { body with
              refresh_token := some refresh_token,
              expires_at := some (now + body.expires_in.getD 3600 - 60) }

/-- `src/app.py` `_exchange_code_for_tokens`: POSTs the authorization code,
`raise_for_status`, sets `expires_at = now + expires_in (default 3600) - 60`.
Does not write the store; `auth_callback` saves the result. -/
def exchange_code_for_tokens (now : Int) (resp : HttpResult) :
    Except PyError TokenJson :=
  match resp with
  | .netError => .error .requestError
  | .response status body =>
    if 400 ≤ status then .error .httpStatusError
    else
      .ok { body with expires_at := some (now + body.expires_in.getD 3600 - 60) }

/-- Result of one `_google_headers()` invocation: the `Authorization`
header value when one is produced, the file state afterwards, and how many
refresh HTTP calls were attempted (0 or 1). -/
structure GHResult where
  headers : Option String
  store : StoreState
  refreshAttempts : Nat
deriving DecidableEq, Repr

/-- `src/app.py` `_google_headers`: loads the store, refreshes (and saves)
when `expires_at <= now`, returns `Bearer <access_token>` or `None`.
`resp` answers the refresh call if one is made. -/
def google_headers (now : Int) (resp : HttpResult) (store : StoreState) : GHResult :=
  let tokens := load_tokens store
  if tokens.isEmptyDict then ⟨none, store, 0⟩
  else if tokens.expires_at.getD 0 ≤ now then
    if pyTruthyStr tokens.refresh_token then
      match refresh_access_token now resp (tokens.refresh_token.getD "") with
      | .error _ => ⟨none, store, 1⟩
      | .ok t2 =>
        let store2 := StoreState.record t2
        match t2.access_token with
        | none => ⟨none, store2, 1⟩
        | some a => if a = "" then ⟨none, store2, 1⟩ else ⟨some ("Bearer " ++ a), store2, 1⟩
    else ⟨none, store, 0⟩
  else
    match tokens.access_token with
    | none => ⟨none, store, 0⟩
    | some a => if a = "" then ⟨none, store, 0⟩ else ⟨some ("Bearer " ++ a), store, 0⟩

/-- Response returned by a handler, plus call counters for the proof:
how many downstream resource calls were made, how many forced refreshes
(the 401-path refresh) and how many proactive refreshes (inside
`_google_headers`) were attempted. -/
structure EndpointResult where
  status : Nat
  body : String
  store : StoreState
  downstreamCalls : Nat
  forcedRefreshAttempts : Nat
  proactiveRefreshAttempts : Nat
deriving DecidableEq, Repr

/-- Body of `src/app.py` `_need_auth()` (the error message). -/
def needAuthBody : String := "Not authorized. Open /auth/start first."

/-- `src/app.py` `gmail_unread` after the api-key guard.  `r1` answers the
refresh the first `_google_headers` may make, `d1` is the first downstream
response (status, body), `rForced` answers the forced refresh in the 401
path, `r2` answers the refresh the second `_google_headers` may make, and
`d2` is the retried downstream response. -/
def gmail_unread (now : Int) (store : StoreState) (r1 : HttpResult)
    (d1 : Nat × String) (rForced : HttpResult) (r2 : HttpResult)
    (d2 : Nat × String) : EndpointResult :=
  let gh := google_headers now r1 store
  match gh.headers with
  | none => ⟨401, needAuthBody, gh.store, 0, 0, gh.refreshAttempts⟩
  | some _ =>
    if d1.1 = 401 then
      let tokens := load_tokens gh.store
      if pyTruthyStr tokens.refresh_token then
        match refresh_access_token now rForced (tokens.refresh_token.getD "") with
        | .error _ => ⟨d1.1, d1.2, gh.store, 1, 1, gh.refreshAttempts⟩
        | .ok t2 =>
          let gh2 := google_headers now r2 (StoreState.record t2)
          ⟨d2.1, d2.2, gh2.store, 2, 1, gh.refreshAttempts + gh2.refreshAttempts⟩
      else ⟨d1.1, d1.2, gh.store, 1, 0, gh.refreshAttempts⟩
    else ⟨d1.1, d1.2, gh.store, 1, 0, gh.refreshAttempts⟩

/-- `src/app.py` `gmail_message` after the api-key guard: no 401 retry —
the downstream response is relayed as-is. -/
def gmail_message (now : Int) (store : StoreState) (r1 : HttpResult)
    (mid : Option String) (d1 : Nat × String) : EndpointResult :=
  let gh := google_headers now r1 store
  match gh.headers with
  | none => ⟨401, needAuthBody, gh.store, 0, 0, gh.refreshAttempts⟩
  | some _ =>
    if pyTruthyStr mid then ⟨d1.1, d1.2, gh.store, 1, 0, gh.refreshAttempts⟩
    else ⟨400, "id required", gh.store, 0, 0, gh.refreshAttempts⟩

/-- `src/app.py` `auth_start` redirect URL (params in the dict's insertion
order: response_type, client_id, redirect_uri, scope, access_type, prompt,
include_granted_scopes). -/
def auth_start_url (client_id redirect_uri : String) (scopes : List String) : String :=
  "https://accounts.google.com/o/oauth2/auth?" ++ urlencode
    [("response_type", "code"),
     ("client_id", client_id),
     ("redirect_uri", redirect_uri),
     ("scope", String.intercalate " " scopes),
     ("access_type", "offline"),
     ("prompt", "consent"),
     ("include_granted_scopes", "true")]

end App2

namespace App

/-- Response returned by a src/App.py handler, plus call counters for the
proof: how many downstream resource calls were made and how many forced
refreshes (a 401-retry path) were attempted.  src/App.py has no such retry
path anywhere, so the forced counter is 0 on every branch. -/
structure EndpointResult where
  status : Nat
  body : String
  downstreamCalls : Nat
  forcedRefreshAttempts : Nat
deriving DecidableEq, Repr

/-- `src/App.py` `gmail_unread`: api-key guard, token lookup via
`get_access_token` (which may raise), then a single downstream call whose
text and status are relayed verbatim — there is no 401 refresh-retry
block.  `resp` answers the proactive refresh `get_access_token` may make,
`d1` is the downstream response (status, body). -/
def gmail_unread (api_key x_api_key : Option String) (now : Int)
    (resp : HttpResult) (store : StoreState) (d1 : Nat × String) :
    StoreState × Except PyError EndpointResult :=
  if require_api_key api_key x_api_key then
    match get_access_token now resp store with
    | (store2, .error e) => (store2, .error e)
    | (store2, .ok tok) =>
      if pyTruthyStr tok then (store2, .ok ⟨d1.1, d1.2, 1, 0⟩)
      else (store2, .ok ⟨401, "Not authorized. Open /auth/start first.", 0, 0⟩)
  else (store, .ok ⟨403, "Forbidden", 0, 0⟩)

end App

/-! ## Helper lemmas about the substring checker and `urlencode` -/

theorem leadsList_self_append (l b : List Char) : leadsList l (l ++ b) = true := by
  induction l with
  | nil => rfl
  | cons a as ih => simp [leadsList, ih]

theorem occursIn_head (pat b : List Char) : occursIn pat (pat ++ b) = true := by
  cases pat with
  | nil =>
    cases b with
    | nil => rfl
    | cons c rest => simp [occursIn, leadsList]
  | cons p ps =>
    simp only [List.cons_append, occursIn]
    have h := leadsList_self_append (p :: ps) b
    simp only [List.cons_append] at h
    simp [h]

theorem occursIn_self (l : List Char) : occursIn l l = true := by
  have h := occursIn_head l []
  simpa using h

theorem occursIn_cons_of (pat : List Char) (c : Char) (s : List Char)
    (h : occursIn pat s = true) : occursIn pat (c :: s) = true := by
  simp [occursIn, h]

theorem occursIn_prepend (pat a s : List Char) (h : occursIn pat s = true) :
    occursIn pat (a ++ s) = true := by
  induction a with
  | nil => simpa using h
  | cons c cs ih => simpa [List.cons_append] using occursIn_cons_of pat c (cs ++ s) ih

theorem strOccurs_head (pat b : String) : strOccurs pat (pat ++ b) = true := by
  simp only [strOccurs, String.data_append]
  exact occursIn_head pat.data b.data

theorem strOccurs_self (pat : String) : strOccurs pat pat = true :=
  occursIn_self pat.data

theorem strOccurs_prepend (pat a s : String) (h : strOccurs pat s = true) :
    strOccurs pat (a ++ s) = true := by
  simp only [strOccurs, String.data_append]
  exact occursIn_prepend pat.data a.data s.data h

theorem strOccurs_head3 (pat x y : String) : strOccurs pat (pat ++ x ++ y) = true := by
  rw [String.append_assoc]
  exact strOccurs_head pat (x ++ y)

theorem urlencode_occurs (k v : String) :
    ∀ ps : List (String × String), (k, v) ∈ ps →
      strOccurs (quote_plus k ++ "=" ++ quote_plus v) (urlencode ps) = true := by
  intro ps
  induction ps with
  | nil => intro h; cases h
  | cons p rest ih =>
    intro hmem
    cases rest with
    | nil =>
      have hp : (k, v) = p := List.mem_singleton.mp hmem
      simp only [urlencode, ← hp]
      exact strOccurs_self (quote_plus k ++ "=" ++ quote_plus v)
    | cons q rest2 =>
      rcases List.mem_cons.mp hmem with hp | htail
      · simp only [urlencode, ← hp]
        exact strOccurs_head3 (quote_plus k ++ "=" ++ quote_plus v) "&"
          (urlencode (q :: rest2))
      · simp only [urlencode]
        exact strOccurs_prepend (quote_plus k ++ "=" ++ quote_plus v)
          (quote_plus p.1 ++ "=" ++ quote_plus p.2 ++ "&") (urlencode (q :: rest2))
          (ih htail)

/-! ## Claim theorems -/

/-- C1 (amended): in src/app.py an empty `ACTION_API_KEY` makes the guard
skip the check and proceed (open mode), and with a non-empty secret a
request whose `x-api-key` header differs is rejected with Forbidden; in
src/App.py, however, an empty or unset secret causes every request to a
key-protected endpoint to be rejected with Forbidden (fail closed), and a
non-empty secret with a mismatching header is likewise rejected. -/
theorem c1_api_key_modes :
    (∀ x : Option String, App2.require_api_key "" x = .proceed) ∧
    (∀ (k : String) (x : Option String), k ≠ "" → x.getD "" ≠ k →
      App2.require_api_key k x = .forbidden) ∧
    (∀ (k : String) (x : Option String), k ≠ "" → x.getD "" = k →
      App2.require_api_key k x = .proceed) ∧
    (∀ x : Option String, App.apiKeyGate none x = .forbidden) ∧
    (∀ x : Option String, App.apiKeyGate (some "") x = .forbidden) ∧
    (∀ (k : String) (x : Option String), k ≠ "" → x ≠ some k →
      App.apiKeyGate (some k) x = .forbidden) := by
  refine ⟨?_, ?_, ?_, ?_, ?_, ?_⟩
  · intro x; simp [App2.require_api_key]
  · intro k x hk hx; simp [App2.require_api_key, hk, hx]
  · intro k x hk hx; simp [App2.require_api_key, hk, hx]
  · intro x; simp [App.apiKeyGate, App.require_api_key, pyTruthyStr]
  · intro x; simp [App.apiKeyGate, App.require_api_key, pyTruthyStr]
  · intro k x hk hx; simp [App.apiKeyGate, App.require_api_key, pyTruthyStr, hk, hx]

/-- C1 witness: the amended behaviour at concrete inputs. -/
theorem c1_api_key_modes_witness :
    App2.require_api_key "" (some "anything") = .proceed ∧
    App2.require_api_key "sek" (some "wrong") = .forbidden ∧
    App.apiKeyGate none (some "sek") = .forbidden ∧
    App.apiKeyGate (some "sek") (some "wrong") = .forbidden :=
  ⟨c1_api_key_modes.1 (some "anything"),
   c1_api_key_modes.2.1 "sek" (some "wrong") (by decide) (by decide),
   c1_api_key_modes.2.2.2.1 (some "sek"),
   c1_api_key_modes.2.2.2.2.2 "sek" (some "wrong") (by decide) (by decide)⟩

/-- C1 counterexample: with `ACTION_API_KEY` unset, src/App.py rejects a
request to a key-protected endpoint with Forbidden instead of skipping the
check and proceeding. -/
theorem c1_counterexample :
    App.apiKeyGate none (some "any-header") = .forbidden ∧
    App.apiKeyGate none none = .forbidden :=
  ⟨rfl, rfl⟩

/-- C4: a successful refresh whose provider response omits `refresh_token`
persists a CredentialSet carrying the previous refresh token forward
unchanged, in both variants. -/
theorem c4_refresh_token_carried (now : Int) (s : Nat) (b : TokenJson)
    (rt : String) (store : StoreState) (hs : ¬ 400 ≤ s)
    (hb : b.refresh_token = none) :
    (∃ t2, App2.refresh_access_token now (.response s b) rt = .ok t2 ∧
      t2.refresh_token = some rt) ∧
    (∃ t2, App.refresh_access_token now (.response s b) rt store =
      (.record t2, .ok t2) ∧ t2.refresh_token = some rt) := by
  constructor
  · refine ⟨({ b with
        refresh_token := some rt
        expires_at := some (now + b.expires_in.getD 3600 - 60) }), ?_, rfl⟩
    simp [App2.refresh_access_token, hs]
  · refine ⟨({ b with
        refresh_token := some rt
        expires_at := some (now + b.expires_in.getD 3500) }), ?_, rfl⟩
    simp [App.refresh_access_token, hs]

/-- C4 witness: a 200 refresh response with no `refresh_token` field. -/
theorem c4_witness :
    (∃ t2, App2.refresh_access_token 1000
        (.response 200 ⟨some "newA", none, some 3600, none, []⟩) "oldRT" =
        .ok t2 ∧ t2.refresh_token = some "oldRT") ∧
    (∃ t2, App.refresh_access_token 1000
        (.response 200 ⟨some "newA", none, some 3600, none, []⟩) "oldRT" .missing =
        (.record t2, .ok t2) ∧ t2.refresh_token = some "oldRT") :=
  c4_refresh_token_carried 1000 200 ⟨some "newA", none, some 3600, none, []⟩
    "oldRT" .missing (by decide) rfl

/-- C9: every successful refresh persists the refresh token that was passed
in; a newly issued `refresh_token` in the provider response is overwritten
with the old value and discarded, in both variants. -/
theorem c9_new_refresh_token_discarded (now : Int) (s : Nat) (b : TokenJson)
    (rt newRt : String) (store : StoreState) (hs : ¬ 400 ≤ s)
    (hb : b.refresh_token = some newRt) :
    (∃ t2, App2.refresh_access_token now (.response s b) rt = .ok t2 ∧
      t2.refresh_token = some rt) ∧
    (∃ t2, App.refresh_access_token now (.response s b) rt store =
      (.record t2, .ok t2) ∧ t2.refresh_token = some rt) := by
  constructor
  · refine ⟨({ b with
        refresh_token := some rt
        expires_at := some (now + b.expires_in.getD 3600 - 60) }), ?_, rfl⟩
    simp [App2.refresh_access_token, hs]
  · refine ⟨({ b with
        refresh_token := some rt
        expires_at := some (now + b.expires_in.getD 3500) }), ?_, rfl⟩
    simp [App.refresh_access_token, hs]

/-- C9 witness: a 200 refresh response that does include a new
`refresh_token`; the old one is persisted. -/
theorem c9_witness :
    (∃ t2, App2.refresh_access_token 1000
        (.response 200 ⟨some "newA", some "newRT", some 3600, none, []⟩) "oldRT" =
        .ok t2 ∧ t2.refresh_token = some "oldRT") ∧
    (∃ t2, App.refresh_access_token 1000
        (.response 200 ⟨some "newA", some "newRT", some 3600, none, []⟩) "oldRT" .missing =
        (.record t2, .ok t2) ∧ t2.refresh_token = some "oldRT") :=
  c9_new_refresh_token_discarded 1000 200 ⟨some "newA", some "newRT", some 3600, none, []⟩
    "oldRT" "newRT" .missing (by decide) rfl

/-- C6 (amended): src/app.py `load_tokens` returns the empty dict (absent)
when the record is missing or unreadable, identical to never authenticated;
src/App.py `load_tokens` returns absent when no record exists but raises a
JSON decode error when the record is corrupt. -/
theorem c6_load_tokens_absent :
    App2.load_tokens .missing = TokenJson.emptyDict ∧
    App2.load_tokens .corrupt = TokenJson.emptyDict ∧
    App.load_tokens .missing = .ok none ∧
    App.load_tokens .corrupt = .error .jsonError :=
  ⟨rfl, rfl, rfl, rfl⟩

/-- C6 counterexample: on a corrupt stored record src/App.py `load_tokens`
raises a JSON decode error instead of returning absent. -/
theorem c6_counterexample :
    App.load_tokens .corrupt = .error .jsonError ∧
    App.load_tokens .corrupt ≠ .ok none :=
  ⟨rfl, by decide⟩

/-- C2 (amended): src/app.py `_google_headers` satisfies the three-step
contract — an absent store yields absent with no refresh attempt; an
expired stored set with a usable refresh token gets exactly one refresh
attempt and yields absent (without raising) whenever that refresh fails; a
stored set whose `expires_at` is still in the future is served from the
store with no refresh attempt.  src/App.py `get_access_token` satisfies
steps 1 and 3, but when the stored set is expired and the single refresh
attempt fails it raises the refresh error instead of returning absent. -/
theorem c2_get_valid_access_token :
    (∀ (now : Int) (r : HttpResult),
      App2.google_headers now r .missing = ⟨none, .missing, 0⟩) ∧
    (∀ (now : Int) (r : HttpResult) (store : StoreState) (rt : String) (e : PyError),
      (App2.load_tokens store).isEmptyDict = false →
      (App2.load_tokens store).expires_at.getD 0 ≤ now →
      (App2.load_tokens store).refresh_token = some rt → rt ≠ "" →
      App2.refresh_access_token now r rt = .error e →
      App2.google_headers now r store = ⟨none, store, 1⟩) ∧
    (∀ (now : Int) (r : HttpResult) (store : StoreState) (a : String),
      (App2.load_tokens store).isEmptyDict = false →
      ¬ (App2.load_tokens store).expires_at.getD 0 ≤ now →
      (App2.load_tokens store).access_token = some a → a ≠ "" →
      App2.google_headers now r store = ⟨some ("Bearer " ++ a), store, 0⟩) ∧
    (∀ (now : Int) (r : HttpResult),
      App.get_access_token now r .missing = (.missing, .ok none)) ∧
    (∀ (now : Int) (r : HttpResult) (t : TokenJson) (a : String),
      t.isEmptyDict = false → ¬ t.expires_at.getD 0 - 60 ≤ now →
      t.access_token = some a →
      App.get_access_token now r (.record t) = (.record t, .ok (some a))) ∧
    (∀ (now : Int) (r : HttpResult) (t : TokenJson) (rt : String)
        (st2 : StoreState) (e : PyError),
      t.isEmptyDict = false → t.expires_at.getD 0 - 60 ≤ now →
      t.refresh_token = some rt →
      App.refresh_access_token now r rt (.record t) = (st2, .error e) →
      App.get_access_token now r (.record t) = (st2, .error e)) := by
  refine ⟨?_, ?_, ?_, ?_, ?_, ?_⟩
  · intro now r; rfl
  · intro now r store rt e h1 h2 h3 h4 h5
    simp [App2.google_headers, h1, h2, h3, h4, h5, pyTruthyStr]
  · intro now r store a h1 h2 h3 h4
    simp [App2.google_headers, h1, h2, h3, h4]
  · intro now r; rfl
  · intro now r t a h1 h2 h3
    simp [App.get_access_token, App.load_tokens, h1, h2, h3]
  · intro now r t rt st2 e h1 h2 h3 h4
    simp [App.get_access_token, App.load_tokens, h1, h2, h3, h4]

/-- C2 witness: the contract at concrete inputs — an expired set with a
refresh token and the network down (src/app.py yields absent with one
attempt), and a still-fresh set (src/App.py serves the stored token). -/
theorem c2_witness :
    App2.google_headers 1000 .netError
        (.record ⟨some "at", some "rt", none, some 100, []⟩) =
      ⟨none, .record ⟨some "at", some "rt", none, some 100, []⟩, 1⟩ ∧
    App.get_access_token 1000 .netError
        (.record ⟨some "at", some "rt", none, some 5000, []⟩) =
      (.record ⟨some "at", some "rt", none, some 5000, []⟩, .ok (some "at")) :=
  ⟨c2_get_valid_access_token.2.1 1000 .netError
      (.record ⟨some "at", some "rt", none, some 100, []⟩) "rt" .requestError
      (by decide) (by decide) (by decide) (by decide) (by decide),
   c2_get_valid_access_token.2.2.2.2.1 1000 .netError
      ⟨some "at", some "rt", none, some 5000, []⟩ "at"
      (by decide) (by decide) (by decide)⟩

/-- C2 counterexample: with a stored expired set and a failing refresh,
src/App.py `get_access_token` raises the propagated refresh error rather
than returning absent. -/
theorem c2_counterexample :
    (App.get_access_token 1000 .netError
        (.record ⟨some "at", some "rt", none, some 100, []⟩)).2 =
      .error .requestError := by decide

/-- C10 (amended): on an expired stored set with no `refresh_token` field,
src/app.py `_google_headers` terminates normally and returns absent without
attempting a refresh; src/App.py `get_access_token` instead raises a
missing-key error when reading the refresh token. -/
theorem c10_missing_refresh_token :
    (∀ (now : Int) (r : HttpResult) (store : StoreState),
      (App2.load_tokens store).isEmptyDict = false →
      (App2.load_tokens store).expires_at.getD 0 ≤ now →
      pyTruthyStr (App2.load_tokens store).refresh_token = false →
      App2.google_headers now r store = ⟨none, store, 0⟩) ∧
    (∀ (now : Int) (r : HttpResult) (t : TokenJson),
      t.isEmptyDict = false → t.expires_at.getD 0 - 60 ≤ now →
      t.refresh_token = none →
      App.get_access_token now r (.record t) =
        (.record t, .error (.keyError "refresh_token"))) := by
  constructor
  · intro now r store h1 h2 h3
    simp [App2.google_headers, h1, h2, h3]
  · intro now r t h1 h2 h3
    simp [App.get_access_token, App.load_tokens, h1, h2, h3]

/-- C10 witness: an expired stored set without a refresh token. -/
theorem c10_witness :
    App2.google_headers 1000 .netError
        (.record ⟨some "at", none, none, some 100, []⟩) =
      ⟨none, .record ⟨some "at", none, none, some 100, []⟩, 0⟩ ∧
    App.get_access_token 1000 .netError
        (.record ⟨some "at", none, none, some 100, []⟩) =
      (.record ⟨some "at", none, none, some 100, []⟩,
        .error (.keyError "refresh_token")) :=
  ⟨c10_missing_refresh_token.1 1000 .netError
      (.record ⟨some "at", none, none, some 100, []⟩)
      (by decide) (by decide) (by decide),
   c10_missing_refresh_token.2 1000 .netError
      ⟨some "at", none, none, some 100, []⟩
      (by decide) (by decide) (by decide)⟩

/-- C10 counterexample: src/App.py `get_access_token` raises a KeyError on
an expired stored set lacking `refresh_token`, instead of returning
absent. -/
theorem c10_counterexample :
    App.get_access_token 1000 .netError
        (.record ⟨some "tok", none, none, some 500, []⟩) =
      (.record ⟨some "tok", none, none, some 500, []⟩,
        .error (.keyError "refresh_token")) := by decide

/-- C3 (amended): a refresh failing with a network error or a non-success
status returns failure without mutating the store, in both variants; but a
success-status refresh response that lacks `access_token` is not treated
as a failing refresh by the code — it is persisted, overwriting the stored
CredentialSet, before the operation reports failure (absent in src/app.py,
a KeyError in src/App.py). -/
theorem c3_refresh_failure_store :
    (∀ (now : Int) (rt : String),
      App2.refresh_access_token now .netError rt = .error .requestError) ∧
    (∀ (now : Int) (s : Nat) (b : TokenJson) (rt : String), 400 ≤ s →
      App2.refresh_access_token now (.response s b) rt = .error .httpStatusError) ∧
    (∀ (now : Int) (r : HttpResult) (store : StoreState) (rt : String) (e : PyError),
      (App2.load_tokens store).isEmptyDict = false →
      (App2.load_tokens store).expires_at.getD 0 ≤ now →
      (App2.load_tokens store).refresh_token = some rt → rt ≠ "" →
      App2.refresh_access_token now r rt = .error e →
      (App2.google_headers now r store).store = store) ∧
    (∀ (now : Int) (rt : String) (store : StoreState),
      App.refresh_access_token now .netError rt store = (store, .error .requestError)) ∧
    (∀ (now : Int) (s : Nat) (b : TokenJson) (rt : String) (store : StoreState),
      400 ≤ s →
      App.refresh_access_token now (.response s b) rt store =
        (store, .error .httpStatusError)) ∧
    (∀ (now : Int) (s : Nat) (b : TokenJson) (store : StoreState) (rt : String),
      (App2.load_tokens store).isEmptyDict = false →
      (App2.load_tokens store).expires_at.getD 0 ≤ now →
      (App2.load_tokens store).refresh_token = some rt → rt ≠ "" →
      ¬ 400 ≤ s → b.access_token = none →
      (App2.google_headers now (.response s b) store).headers = none ∧
      (App2.google_headers now (.response s b) store).store =
        .record { b with
          refresh_token := some rt
          expires_at := some (now + b.expires_in.getD 3600 - 60) }) ∧
    (∀ (now : Int) (s : Nat) (b t : TokenJson) (rt : String),
      t.isEmptyDict = false → t.expires_at.getD 0 - 60 ≤ now →
      t.refresh_token = some rt → ¬ 400 ≤ s → b.access_token = none →
      App.get_access_token now (.response s b) (.record t) =
        (.record { b with
          refresh_token := some rt
          expires_at := some (now + b.expires_in.getD 3500) },
         .error (.keyError "access_token"))) := by
  refine ⟨?_, ?_, ?_, ?_, ?_, ?_, ?_⟩
  · intro now rt; rfl
  · intro now s b rt hs; simp [App2.refresh_access_token, hs]
  · intro now r store rt e h1 h2 h3 h4 h5
    simp [App2.google_headers, h1, h2, h3, h4, h5, pyTruthyStr]
  · intro now rt store; rfl
  · intro now s b rt store hs; simp [App.refresh_access_token, hs]
  · intro now s b store rt h1 h2 h3 h4 hs hb
    simp [App2.google_headers, App2.refresh_access_token, h1, h2, h3, h4, hs, hb,
      pyTruthyStr]
  · intro now s b t rt h1 h2 h3 hs hb
    simp [App.get_access_token, App.load_tokens, App.refresh_access_token,
      h1, h2, h3, hs, hb]

/-- C3 witness: failing refreshes at concrete inputs — store untouched on
a network error and a non-success status, and overwritten by src/App.py on
a 200 response lacking `access_token` before the KeyError is raised. -/
theorem c3_witness :
    App2.refresh_access_token 1000 .netError "rt" = .error .requestError ∧
    App.refresh_access_token 1000 (.response 401 TokenJson.emptyDict) "rt"
        (.record ⟨some "old", some "rt", none, some 100, []⟩) =
      (.record ⟨some "old", some "rt", none, some 100, []⟩,
        .error .httpStatusError) ∧
    App.get_access_token 1000 (.response 200 ⟨none, none, some 3600, none, []⟩)
        (.record ⟨some "old", some "rt", none, some 100, []⟩) =
      (.record ⟨none, some "rt", some 3600, some 4600, []⟩,
        .error (.keyError "access_token")) :=
  ⟨c3_refresh_failure_store.1 1000 "rt",
   c3_refresh_failure_store.2.2.2.2.1 1000 401 TokenJson.emptyDict "rt"
      (.record ⟨some "old", some "rt", none, some 100, []⟩) (by decide),
   c3_refresh_failure_store.2.2.2.2.2.2 1000 200
      ⟨none, none, some 3600, none, []⟩ ⟨some "old", some "rt", none, some 100, []⟩
      "rt" (by decide) (by decide) (by decide) (by decide) (by decide)⟩

/-- C3 counterexample: a 200 refresh response with no `access_token` — a
failing refresh in the claim's sense — overwrites the previously stored
CredentialSet even though the operation then reports failure. -/
theorem c3_counterexample :
    (App2.google_headers 1000 (.response 200 ⟨none, none, some 3600, none, []⟩)
        (.record ⟨some "old", some "rt2", none, some 100, []⟩)).headers = none ∧
    (App2.google_headers 1000 (.response 200 ⟨none, none, some 3600, none, []⟩)
        (.record ⟨some "old", some "rt2", none, some 100, []⟩)).store ≠
      .record ⟨some "old", some "rt2", none, some 100, []⟩ := by
  constructor
  · decide
  · decide

/-- C5 (amended): in src/app.py both acquisition paths store
`expires_at = now + expires_in - 60`, a positive safety margin below the
literal provider expiry; in src/App.py both paths store
`expires_at = now + expires_in` with no margin subtracted at acquisition
time — instead `get_access_token` applies the 60-second margin at the
expiry check, so a credential is still treated as expired (refresh is
attempted) once `now ≥ expires_at - 60`, strictly before literal expiry. -/
theorem c5_expiry_margin :
    (∀ (now : Int) (s : Nat) (b : TokenJson) (rt : String), ¬ 400 ≤ s →
      ∃ t2, App2.refresh_access_token now (.response s b) rt = .ok t2 ∧
        t2.expires_at = some (now + b.expires_in.getD 3600 - 60)) ∧
    (∀ (now : Int) (s : Nat) (b : TokenJson), ¬ 400 ≤ s →
      ∃ t2, App2.exchange_code_for_tokens now (.response s b) = .ok t2 ∧
        t2.expires_at = some (now + b.expires_in.getD 3600 - 60)) ∧
    (0 : Int) < 60 ∧
    (∀ (now : Int) (s : Nat) (b : TokenJson) (rt : String) (store : StoreState),
      ¬ 400 ≤ s →
      ∃ t2, App.refresh_access_token now (.response s b) rt store =
        (.record t2, .ok t2) ∧ t2.expires_at = some (now + b.expires_in.getD 3500)) ∧
    (∀ (now : Int) (s : Nat) (b : TokenJson) (store : StoreState), ¬ 400 ≤ s →
      ∃ t2, App.auth_callback_exchange now (.response s b) store =
        (.record t2, .ok t2) ∧ t2.expires_at = some (now + b.expires_in.getD 3500)) ∧
    (∀ (now : Int) (t : TokenJson) (rt : String),
      t.isEmptyDict = false → t.refresh_token = some rt →
      t.expires_at.getD 0 - 60 ≤ now → now < t.expires_at.getD 0 →
      (App.get_access_token now .netError (.record t)).2 = .error .requestError) := by
  refine ⟨?_, ?_, by omega, ?_, ?_, ?_⟩
  · intro now s b rt hs
    refine ⟨({ b with
        refresh_token := some rt
        expires_at := some (now + b.expires_in.getD 3600 - 60) }), ?_, rfl⟩
    simp [App2.refresh_access_token, hs]
  · intro now s b hs
    refine ⟨({ b with
        expires_at := some (now + b.expires_in.getD 3600 - 60) }), ?_, rfl⟩
    simp [App2.exchange_code_for_tokens, hs]
  · intro now s b rt store hs
    refine ⟨({ b with
        refresh_token := some rt
        expires_at := some (now + b.expires_in.getD 3500) }), ?_, rfl⟩
    simp [App.refresh_access_token, hs]
  · intro now s b store hs
    refine ⟨({ b with
        expires_at := some (now + b.expires_in.getD 3500) }), ?_, rfl⟩
    simp [App.auth_callback_exchange, hs]
  · intro now t rt h1 h2 h3 h4
    simp [App.get_access_token, App.load_tokens, App.refresh_access_token,
      h1, h2, h3]

/-- C5 witness: concrete acquisitions — src/app.py stores 4540 for
`now = 1000, expires_in = 3600`, src/App.py stores 4600, and src/App.py
attempts a refresh at `now = 50` on a set expiring at 100. -/
theorem c5_witness :
    (∃ t2, App2.refresh_access_token 1000
        (.response 200 ⟨some "a", none, some 3600, none, []⟩) "rt" = .ok t2 ∧
        t2.expires_at = some 4540) ∧
    (∃ t2, App.auth_callback_exchange 1000
        (.response 200 ⟨some "a", none, some 3600, none, []⟩) .missing =
        (.record t2, .ok t2) ∧ t2.expires_at = some 4600) ∧
    (App.get_access_token 50 .netError
        (.record ⟨some "a", some "rt", none, some 100, []⟩)).2 =
      .error .requestError :=
  ⟨c5_expiry_margin.1 1000 200 ⟨some "a", none, some 3600, none, []⟩ "rt" (by decide),
   c5_expiry_margin.2.2.2.2.1 1000 200 ⟨some "a", none, some 3600, none, []⟩ .missing
      (by decide),
   c5_expiry_margin.2.2.2.2.2 50 ⟨some "a", some "rt", none, some 100, []⟩ "rt"
      (by decide) (by decide) (by decide) (by decide)⟩

/-- C5 counterexample: src/App.py stores `expires_at = now + expires_in`
with no positive margin subtracted — at `now = 1000, expires_in = 3600` the
stored value is 4600, which cannot be `now + expires_in - m` for any
positive m. -/
theorem c5_counterexample :
    (∃ t2, App.refresh_access_token 1000
        (.response 200 ⟨some "a", none, some 3600, none, []⟩) "rt" .missing =
        (.record t2, .ok t2) ∧ t2.expires_at = some 4600) ∧
    ¬ ∃ m : Int, 0 < m ∧ (4600 : Int) = 1000 + 3600 - m := by
  constructor
  · exact ⟨⟨some "a", some "rt", some 3600, some 4600, []⟩, by decide, rfl⟩
  · rintro ⟨m, hm, he⟩; omega

/-- C7 (amended): in both variants the consent-URL construction is a pure
deterministic function of its configuration inputs — identical inputs give
byte-identical URLs, with no network call in the embedding — and the
produced URL always contains the `prompt=consent` and `access_type=offline`
query parameters; the granted-scope inclusion parameter
(`include_granted_scopes=true`) is present in src/app.py's URL but absent
from src/App.py's. -/
theorem c7_consent_url :
    (∀ (cid ruri : String) (scopes : List String),
      strOccurs "prompt=consent" (App2.auth_start_url cid ruri scopes) = true ∧
      strOccurs "access_type=offline" (App2.auth_start_url cid ruri scopes) = true ∧
      strOccurs "include_granted_scopes=true"
        (App2.auth_start_url cid ruri scopes) = true) ∧
    (∀ cid ruri scopes : String,
      strOccurs "prompt=consent" (App.auth_start_url cid ruri scopes) = true ∧
      strOccurs "access_type=offline" (App.auth_start_url cid ruri scopes) = true) ∧
    (∀ (c1 c2 r1 r2 : String) (s1 s2 : List String), c1 = c2 → r1 = r2 → s1 = s2 →
      App2.auth_start_url c1 r1 s1 = App2.auth_start_url c2 r2 s2) ∧
    (∀ c1 c2 r1 r2 s1 s2 : String, c1 = c2 → r1 = r2 → s1 = s2 →
      App.auth_start_url c1 r1 s1 = App.auth_start_url c2 r2 s2) := by
  refine ⟨?_, ?_, ?_, ?_⟩
  · intro cid ruri scopes
    refine ⟨?_, ?_, ?_⟩
    · have h := urlencode_occurs "prompt" "consent"
        [("response_type", "code"), ("client_id", cid), ("redirect_uri", ruri),
         ("scope", String.intercalate " " scopes), ("access_type", "offline"),
         ("prompt", "consent"), ("include_granted_scopes", "true")] (by simp)
      rw [show quote_plus "prompt" ++ "=" ++ quote_plus "consent" =
        "prompt=consent" by decide] at h
      exact strOccurs_prepend "prompt=consent"
        "https://accounts.google.com/o/oauth2/auth?" _ h
    · have h := urlencode_occurs "access_type" "offline"
        [("response_type", "code"), ("client_id", cid), ("redirect_uri", ruri),
         ("scope", String.intercalate " " scopes), ("access_type", "offline"),
         ("prompt", "consent"), ("include_granted_scopes", "true")] (by simp)
      rw [show quote_plus "access_type" ++ "=" ++ quote_plus "offline" =
        "access_type=offline" by decide] at h
      exact strOccurs_prepend "access_type=offline"
        "https://accounts.google.com/o/oauth2/auth?" _ h
    · have h := urlencode_occurs "include_granted_scopes" "true"
        [("response_type", "code"), ("client_id", cid), ("redirect_uri", ruri),
         ("scope", String.intercalate " " scopes), ("access_type", "offline"),
         ("prompt", "consent"), ("include_granted_scopes", "true")] (by simp)
      rw [show quote_plus "include_granted_scopes" ++ "=" ++ quote_plus "true" =
        "include_granted_scopes=true" by decide] at h
      exact strOccurs_prepend "include_granted_scopes=true"
        "https://accounts.google.com/o/oauth2/auth?" _ h
  · intro cid ruri scopes
    constructor
    · have h := urlencode_occurs "prompt" "consent"
        [("client_id", cid), ("redirect_uri", ruri), ("response_type", "code"),
         ("access_type", "offline"), ("prompt", "consent"),
         ("scope", scopes)] (by simp)
      rw [show quote_plus "prompt" ++ "=" ++ quote_plus "consent" =
        "prompt=consent" by decide] at h
      exact strOccurs_prepend "prompt=consent"
        "https://accounts.google.com/o/oauth2/auth?" _ h
    · have h := urlencode_occurs "access_type" "offline"
        [("client_id", cid), ("redirect_uri", ruri), ("response_type", "code"),
         ("access_type", "offline"), ("prompt", "consent"),
         ("scope", scopes)] (by simp)
      rw [show quote_plus "access_type" ++ "=" ++ quote_plus "offline" =
        "access_type=offline" by decide] at h
      exact strOccurs_prepend "access_type=offline"
        "https://accounts.google.com/o/oauth2/auth?" _ h
  · intro c1 c2 r1 r2 s1 s2 hc hr hs; rw [hc, hr, hs]
  · intro c1 c2 r1 r2 s1 s2 hc hr hs; rw [hc, hr, hs]

/-- C7 witness: the parameters at a concrete configuration, and
byte-identity of two identically configured URL constructions. -/
theorem c7_witness :
    strOccurs "prompt=consent"
      (App2.auth_start_url "CID" "https://example.com/cb"
        ["https://mail.google.com/"]) = true ∧
    App.auth_start_url "CID" "https://example.com/cb" "s1 s2" =
      App.auth_start_url "CID" "https://example.com/cb" "s1 s2" :=
  ⟨(c7_consent_url.1 "CID" "https://example.com/cb"
      ["https://mail.google.com/"]).1,
   c7_consent_url.2.2.2 "CID" "CID" "https://example.com/cb"
      "https://example.com/cb" "s1 s2" "s1 s2" rfl rfl rfl⟩

/-- C7 counterexample: src/App.py's consent URL does not contain the
granted-scope inclusion parameter at a concrete configuration. -/
theorem c7_counterexample :
    strOccurs "include_granted_scopes"
      (App.auth_start_url "CID" "https://example.com/cb"
        "https://mail.google.com/") = false := by decide

/-- C8 (amended): only src/app.py's `gmail_unread` implements the 401
retry: on a 401 downstream response, if the stored record has a usable
refresh token it performs exactly one forced refresh and, when that refresh
succeeds, exactly one retried downstream call whose status and body are
relayed verbatim (even when the retry fails there is no further retry);
when the forced refresh fails, or no refresh token is stored, the original
401 response is relayed verbatim with no retry.  The claim's other cited
proxied operations — src/app.py's `gmail_message` and src/App.py's
`gmail_unread` — relay every downstream response, a 401 included, verbatim
with no forced refresh and no retried call. -/
theorem c8_dispatch_retry :
    (∀ (now : Int) (store : StoreState) (r1 rForced r2 : HttpResult)
        (h : String) (st1 : StoreState) (n1 : Nat) (b1 : String)
        (d2 : Nat × String) (t2 : TokenJson),
      App2.google_headers now r1 store = ⟨some h, st1, n1⟩ →
      pyTruthyStr (App2.load_tokens st1).refresh_token = true →
      App2.refresh_access_token now rForced
        ((App2.load_tokens st1).refresh_token.getD "") = .ok t2 →
      App2.gmail_unread now store r1 (401, b1) rForced r2 d2 =
        ⟨d2.1, d2.2, (App2.google_headers now r2 (.record t2)).store, 2, 1,
          n1 + (App2.google_headers now r2 (.record t2)).refreshAttempts⟩) ∧
    (∀ (now : Int) (store : StoreState) (r1 rForced r2 : HttpResult)
        (h : String) (st1 : StoreState) (n1 : Nat) (b1 : String)
        (d2 : Nat × String) (e : PyError),
      App2.google_headers now r1 store = ⟨some h, st1, n1⟩ →
      pyTruthyStr (App2.load_tokens st1).refresh_token = true →
      App2.refresh_access_token now rForced
        ((App2.load_tokens st1).refresh_token.getD "") = .error e →
      App2.gmail_unread now store r1 (401, b1) rForced r2 d2 =
        ⟨401, b1, st1, 1, 1, n1⟩) ∧
    (∀ (now : Int) (store : StoreState) (r1 rForced r2 : HttpResult)
        (h : String) (st1 : StoreState) (n1 : Nat) (b1 : String)
        (d2 : Nat × String),
      App2.google_headers now r1 store = ⟨some h, st1, n1⟩ →
      pyTruthyStr (App2.load_tokens st1).refresh_token = false →
      App2.gmail_unread now store r1 (401, b1) rForced r2 d2 =
        ⟨401, b1, st1, 1, 0, n1⟩) ∧
    (∀ (now : Int) (store : StoreState) (r1 rForced r2 : HttpResult)
        (h : String) (st1 : StoreState) (n1 : Nat) (d1 d2 : Nat × String),
      App2.google_headers now r1 store = ⟨some h, st1, n1⟩ →
      d1.1 ≠ 401 →
      App2.gmail_unread now store r1 d1 rForced r2 d2 =
        ⟨d1.1, d1.2, st1, 1, 0, n1⟩) ∧
    (∀ (now : Int) (store : StoreState) (r1 : HttpResult) (h : String)
        (st1 : StoreState) (n1 : Nat) (mid : Option String) (d1 : Nat × String),
      App2.google_headers now r1 store = ⟨some h, st1, n1⟩ →
      pyTruthyStr mid = true →
      App2.gmail_message now store r1 mid d1 =
        ⟨d1.1, d1.2, st1, 1, 0, n1⟩) ∧
    (∀ (api_key x_api_key : Option String) (now : Int) (r : HttpResult)
        (store st2 : StoreState) (tok : String) (s1 : Nat) (b1 : String),
      App.require_api_key api_key x_api_key = true →
      App.get_access_token now r store = (st2, .ok (some tok)) → tok ≠ "" →
      App.gmail_unread api_key x_api_key now r store (s1, b1) =
        (st2, .ok ⟨s1, b1, 1, 0⟩)) := by
  refine ⟨?_, ?_, ?_, ?_, ?_, ?_⟩
  · intro now store r1 rForced r2 h st1 n1 b1 d2 t2 hgh hrt href
    simp [App2.gmail_unread, hgh, hrt, href]
  · intro now store r1 rForced r2 h st1 n1 b1 d2 e hgh hrt href
    simp [App2.gmail_unread, hgh, hrt, href]
  · intro now store r1 rForced r2 h st1 n1 b1 d2 hgh hrt
    simp [App2.gmail_unread, hgh, hrt]
  · intro now store r1 rForced r2 h st1 n1 d1 d2 hgh hd1
    simp [App2.gmail_unread, hgh, hd1]
  · intro now store r1 h st1 n1 mid d1 hgh hmid
    simp [App2.gmail_message, hgh, hmid]
  · intro api_key x_api_key now r store st2 tok s1 b1 hkey htok hne
    simp [App.gmail_unread, hkey, htok, pyTruthyStr, hne]

/-- C8 witness: a fresh stored credential, a 401 first downstream response
and a successful forced refresh — src/app.py's `gmail_unread` makes exactly
one forced refresh and one retried downstream call and relays the retry's
response; `gmail_message` and src/App.py's `gmail_unread` with the same 401
make no refresh and no retry. -/
theorem c8_witness :
    App2.gmail_unread 1000 (.record ⟨some "tok", some "rt", none, some 5000, []⟩)
        .netError (401, "unauth")
        (.response 200 ⟨some "tok2", none, some 3600, none, []⟩)
        .netError (200, "ok") =
      ⟨200, "ok",
        .record ⟨some "tok2", some "rt", some 3600, some 4540, []⟩, 2, 1, 0⟩ ∧
    App2.gmail_message 1000 (.record ⟨some "tok", some "rt", none, some 5000, []⟩)
        .netError (some "m1") (401, "unauth") =
      ⟨401, "unauth", .record ⟨some "tok", some "rt", none, some 5000, []⟩,
        1, 0, 0⟩ ∧
    App.gmail_unread (some "sek") (some "sek") 1000 .netError
        (.record ⟨some "tok", some "rt", none, some 5000, []⟩) (401, "unauth") =
      (.record ⟨some "tok", some "rt", none, some 5000, []⟩,
        .ok ⟨401, "unauth", 1, 0⟩) := by
  refine ⟨?_, ?_, ?_⟩
  · have h := c8_dispatch_retry.1 1000
      (.record ⟨some "tok", some "rt", none, some 5000, []⟩) .netError
      (.response 200 ⟨some "tok2", none, some 3600, none, []⟩) .netError
      "Bearer tok" (.record ⟨some "tok", some "rt", none, some 5000, []⟩) 0
      "unauth" (200, "ok") ⟨some "tok2", some "rt", some 3600, some 4540, []⟩
      (by decide) (by decide) (by decide)
    rw [h]; decide
  · exact c8_dispatch_retry.2.2.2.2.1 1000
      (.record ⟨some "tok", some "rt", none, some 5000, []⟩) .netError
      "Bearer tok" (.record ⟨some "tok", some "rt", none, some 5000, []⟩) 0
      (some "m1") (401, "unauth") (by decide) (by decide)
  · exact c8_dispatch_retry.2.2.2.2.2 (some "sek") (some "sek") 1000 .netError
      (.record ⟨some "tok", some "rt", none, some 5000, []⟩)
      (.record ⟨some "tok", some "rt", none, some 5000, []⟩) "tok" 401 "unauth"
      (by decide) (by decide) (by decide)

/-- C8 counterexample: `gmail_message` — a proxied downstream operation
named by the claim — receives a 401 downstream response and relays it with
zero forced refreshes and no retried call, contrary to the claimed
exactly-one forced refresh and retry for every proxied operation. -/
theorem c8_counterexample :
    App2.gmail_message 1000 (.record ⟨some "tok", some "rt", none, some 9999, []⟩)
        .netError (some "msg7") (401, "authErr") =
      ⟨401, "authErr", .record ⟨some "tok", some "rt", none, some 9999, []⟩,
        1, 0, 0⟩ := by decide
